import Mathlib

/-!
Verification development for the ToolEvo platform's Tool Resolution &
Invocation Core: a shallow embedding of the tool-registry service
(`services/tool-registry/app/main.py`, `models.py`, `schemas.py`) and the
tool-gateway service (`services/tool-gateway/app/main.py`), together with
theorems settling the specification's claims about them.

Modelling conventions:
* timestamps (`created_at`, `updated_at`, `datetime.utcnow()`) are `Nat`;
* ids and slugs are `String`; id generation and clock reads become explicit
  parameters of the operations that perform them;
* the SQL store is a `Store` value (lists of rows); each mutating endpoint
  returns its `Except`-style HTTP outcome together with the resulting store;
* `HTTPException(status, detail)` becomes `ApiError.httpError status detail`;
* JSON documents are the `Json` inductive; a downstream HTTP body is carried
  as raw text plus its parse result (`Option Json`), embedding the fact that
  `resp.json()` can raise `ValueError`.
-/

/-- JSON values, for `input_schema` / `output_schema` documents, call inputs
and downstream response bodies. -/
inductive Json where
  | null : Json
  | bool (b : Bool) : Json
  | num (n : Int) : Json
  | str (s : String) : Json
  | arr (elems : List Json) : Json
  | obj (fields : List (String × Json)) : Json

/-- `models.ToolStatus`: the four version lifecycle states. -/
inductive ToolStatus where
  | draft : ToolStatus
  | active : ToolStatus
  | deprecated : ToolStatus
  | retired : ToolStatus
  deriving DecidableEq, Repr

/-- A row of the `tools` table (`models.Tool`). -/
structure Tool where
  id : String
  slug : String
  display_name : String
  description : Option String
  created_at : Nat
  updated_at : Nat

/-- A row of the `tool_versions` table (`models.ToolVersion`). -/
structure ToolVersion where
  id : String
  tool_id : String
  version : String
  status : ToolStatus
  input_schema : Json
  output_schema : Json
  endpoint_protocol : String
  endpoint_method : Option String
  endpoint_url : Option String
  auth_type : String
  auth_key_name : Option String
  auth_key_location : Option String
  cost_per_call_usd : Option String
  valid_from : Option Nat
  valid_to : Option Nat
  created_at : Nat
  updated_at : Nat

/-- The registry database: the `tools` and `tool_versions` tables, rows in
insertion order. -/
structure Store where
  tools : List Tool
  versions : List ToolVersion

/-- `schemas.ToolCreate` request payload. -/
structure ToolCreate where
  slug : String
  display_name : String
  description : Option String := none

/-- `schemas.ToolVersionCreate` request payload; `status` defaults to
`draft` exactly as in `schemas.ToolVersionBase`. -/
structure ToolVersionCreate where
  version : String
  status : ToolStatus := ToolStatus.draft
  input_schema : Json
  output_schema : Json
  endpoint_protocol : String
  endpoint_method : Option String := none
  endpoint_url : Option String := none
  auth_type : String := "none"
  auth_key_name : Option String := none
  auth_key_location : Option String := none
  cost_per_call_usd : Option String := none
  valid_from : Option Nat := none
  valid_to : Option Nat := none

/-- An `HTTPException(status_code, detail)` raised by an endpoint. -/
inductive ApiError where
  | httpError (status : Nat) (detail : String) : ApiError
  deriving DecidableEq, Repr

/-- `POST /tools` (`create_tool`): reject a duplicate slug with 400,
otherwise insert a fresh `Tool` row.  `newId` is the generated uuid and
`now` the `datetime.utcnow()` reading. -/
def create_tool (s : Store) (payload : ToolCreate) (newId : String) (now : Nat) :
    Except ApiError Tool × Store :=
  if s.tools.any (fun t => t.slug = payload.slug) then
    (Except.error (ApiError.httpError 400 "Tool with this slug already exists"), s)
  else
    let db_tool : Tool :=
      { id := newId
        slug := payload.slug
        display_name := payload.display_name
        description := payload.description
        created_at := now
        updated_at := now }
    (Except.ok db_tool, { s with tools := s.tools ++ [db_tool] })

/-- `POST /tools/{tool_id}/versions` (`create_tool_version`): 404 when the
tool id is unknown, otherwise insert a `ToolVersion` row copying every
payload field — including `status`. -/
def create_tool_version (s : Store) (tool_id : String) (payload : ToolVersionCreate)
    (newId : String) (now : Nat) : Except ApiError ToolVersion × Store :=
  match s.tools.find? (fun t => t.id = tool_id) with
  | none => (Except.error (ApiError.httpError 404 "Tool not found"), s)
  | some tool =>
    let db_version : ToolVersion :=
      { id := newId
        tool_id := tool.id
        version := payload.version
        status := payload.status
        input_schema := payload.input_schema
        output_schema := payload.output_schema
        endpoint_protocol := payload.endpoint_protocol
        endpoint_method := payload.endpoint_method
        endpoint_url := payload.endpoint_url
        auth_type := payload.auth_type
        auth_key_name := payload.auth_key_name
        auth_key_location := payload.auth_key_location
        cost_per_call_usd := payload.cost_per_call_usd
        valid_from := payload.valid_from
        valid_to := payload.valid_to
        created_at := now
        updated_at := now }
    (Except.ok db_version, { s with versions := s.versions ++ [db_version] })

/-- Insert into a list kept in descending `created_at` order: the embedding
of `ORDER BY created_at DESC`. -/
def insertDesc (v : ToolVersion) : List ToolVersion → List ToolVersion
  | [] => [v]
  | w :: ws => if w.created_at > v.created_at then w :: insertDesc v ws else v :: w :: ws

/-- Sort rows by `created_at` descending (stable: rows with equal timestamps
keep insertion order, as SQLite returns them). -/
def sortByCreatedDesc (l : List ToolVersion) : List ToolVersion :=
  l.foldr insertDesc []

/-- `GET /tools/{tool_id}/versions` (`list_tool_versions`): filter by
`tool_id` and the optional `status` query, newest first.  Never fails. -/
def list_tool_versions (s : Store) (tool_id : String) (status : Option ToolStatus) :
    List ToolVersion :=
  let q := s.versions.filter (fun v => v.tool_id = tool_id)
  let q := match status with
    | none => q
    | some st => q.filter (fun v => v.status = st)
  sortByCreatedDesc q

/-- `GET /tools/{tool_id}/versions/{version_id}` (`get_tool_version`). -/
def get_tool_version (s : Store) (tool_id : String) (version_id : String) :
    Except ApiError ToolVersion :=
  match s.versions.find? (fun v => v.tool_id = tool_id ∧ v.id = version_id) with
  | none => Except.error (ApiError.httpError 404 "Tool version not found")
  | some version => Except.ok version

/-- Update the first row matching `p` with `f`, leaving the rest unchanged:
the embedding of mutating the single ORM object returned by `one_or_none`. -/
def updateFirst (p : ToolVersion → Bool) (f : ToolVersion → ToolVersion) :
    List ToolVersion → List ToolVersion
  | [] => []
  | v :: vs => if p v then f v :: vs else v :: updateFirst p f vs

/-- `PATCH /tools/{tool_id}/versions/{version_id}/status`
(`update_tool_version_status`): 404 when the pair matches no row, otherwise
overwrite `status` unconditionally and refresh `updated_at`. -/
def update_tool_version_status (s : Store) (tool_id : String) (version_id : String)
    (newStatus : ToolStatus) (now : Nat) : Except ApiError ToolVersion × Store :=
  match s.versions.find? (fun v => v.tool_id = tool_id ∧ v.id = version_id) with
  | none => (Except.error (ApiError.httpError 404 "Tool version not found"), s)
  | some version =>
    let setStatus : ToolVersion → ToolVersion :=
      fun v => { v with status := newStatus, updated_at := now }
    let newVersions :=
      updateFirst (fun v => v.tool_id = tool_id ∧ v.id = version_id) setStatus s.versions
    (Except.ok (setStatus version), { s with versions := newVersions })

/-- The first row attaining the maximal `created_at`: the embedding of
`.order_by(created_at.desc()).first()` (stable on ties, rows in insertion
order). -/
def pickLatest : List ToolVersion → Option ToolVersion
  | [] => none
  | v :: vs =>
    match pickLatest vs with
    | none => some v
    | some w => if w.created_at > v.created_at then some w else some v

/-- The body of a successful `GET /resolve`. -/
structure ResolveResponse where
  tool : Tool
  version : ToolVersion

/-- `GET /resolve` (`resolve_tool`): find the tool by slug (404 if absent),
then the latest `active` version by `created_at` (404 if none). -/
def resolve_tool (s : Store) (slug : String) : Except ApiError ResolveResponse :=
  match s.tools.find? (fun t => t.slug = slug) with
  | none => Except.error (ApiError.httpError 404 "Tool not found")
  | some tool =>
    match pickLatest (s.versions.filter
        (fun v => v.tool_id = tool.id ∧ v.status = ToolStatus.active)) with
    | none => Except.error (ApiError.httpError 404 "No active version for this tool")
    | some version => Except.ok { tool := tool, version := version }

/-! ## Tool Gateway (`services/tool-gateway/app/main.py`)

`call_tool` is embedded as a pure function of: the outcome of the registry
`/resolve` call, the caller's `input` map, and the network, modelled as a
function from outbound HTTP requests to transport outcomes.  Alongside its
HTTP outcome it returns the list of outbound requests it dispatched, so that
"dispatched as GET/POST", "with these parameters" and "exactly once" are
provable statements. -/

/-- An outbound HTTP request made by the gateway: `client.get(url, params=…)`
carries `queryParams`, `client.post(url, json=…)` carries `jsonBody`. -/
structure HttpRequest where
  method : String
  url : String
  queryParams : Option (List (String × Json))
  jsonBody : Option (List (String × Json))

/-- An `httpx.RequestError` (connection refused, timeout, DNS failure…). -/
structure TransportError where
  message : String

/-- A downstream HTTP response: status code, the result of attempting to
parse the body as JSON (`none` when `resp.json()` raises `ValueError`), and
the raw body text. -/
structure HttpResponse where
  status_code : Nat
  jsonBody : Option Json
  text : String

/-- The body of a successful `POST /call_tool`. -/
structure CallToolResponse where
  tool : Tool
  version : ToolVersion
  tool_status_code : Nat
  result : Json

/-- `pre` is a prefix of the character list `s`: the semantics of Python
`str.startswith` (defined on character lists so it computes in the kernel). -/
def listIsPrefixOf : List Char → List Char → Bool
  | [], _ => true
  | _, [] => false
  | c :: cs, d :: ds => (c = d) && listIsPrefixOf cs ds

/-- Python `s.startswith(pre)`. -/
def strStartsWith (s pre : String) : Bool := listIsPrefixOf pre.toList s.toList

/-- Python `s.upper()` (character-wise, on the underlying character list). -/
def strToUpper (s : String) : String := String.mk (s.data.map Char.toUpper)

/-- `(version.get("endpoint_method") or "POST").upper()`: Python `or` also
replaces the empty string by the default. -/
def normMethod (m : Option String) : String :=
  strToUpper (match m with
   | none => "POST"
   | some s => if s = "" then "POST" else s)

/-- `POST /call_tool` (`call_tool`): resolve, build the target URL, dispatch
by method, wrap transport failures as 502, pass the downstream status
through and JSON-parse the body with a `raw`-text fallback. -/
def call_tool (resolved : Except ApiError ResolveResponse)
    (input : List (String × Json))
    (net : HttpRequest → Except TransportError HttpResponse) :
    Except ApiError CallToolResponse × List HttpRequest :=
  match resolved with
  | Except.error (ApiError.httpError c d) =>
    (Except.error (ApiError.httpError c ("Failed to resolve tool: " ++ d)), [])
  | Except.ok r =>
    let version := r.version
    let endpoint_method := normMethod version.endpoint_method
    let protocol := version.endpoint_protocol
    match version.endpoint_url with
    | none => (Except.error (ApiError.httpError 500 "Tool endpoint_url is not set"), [])
    | some u =>
      if u = "" then
        (Except.error (ApiError.httpError 500 "Tool endpoint_url is not set"), [])
      else
        let endpoint_url := if strStartsWith u "http" then u else protocol ++ "://" ++ u
        let dispatch : Option HttpRequest :=
          if endpoint_method = "GET" then
            some { method := "GET", url := endpoint_url,
                   queryParams := some input, jsonBody := none }
          else if endpoint_method = "POST" then
            some { method := "POST", url := endpoint_url,
                   queryParams := none, jsonBody := some input }
          else none
        match dispatch with
        | none =>
          (Except.error
            (ApiError.httpError 500 ("Unsupported endpoint_method: " ++ endpoint_method)), [])
        | some req =>
          let outcome : Except ApiError CallToolResponse :=
            match net req with
            | Except.error e =>
              Except.error
                (ApiError.httpError 502 ("Error calling tool endpoint: " ++ e.message))
            | Except.ok tool_resp =>
              let tool_data :=
                match tool_resp.jsonBody with
                | some j => j
                | none => Json.obj [("raw", Json.str tool_resp.text)]
              Except.ok
                { tool := r.tool, version := version,
                  tool_status_code := tool_resp.status_code, result := tool_data }
          (outcome, [req])

/-- Leading characters form `<scheme>://` with a nonempty alphabetic scheme;
the accumulator records whether at least one scheme character was seen. -/
def goScheme : List Char → Bool → Bool
  | ':' :: '/' :: '/' :: _, seen => seen
  | c :: rest, _ => if c.isAlpha then goScheme rest true else false
  | [], _ => false

/-- Modelled from the spec: "if `endpoint_url` already carries a scheme
prefix" — a URL carries a scheme prefix when it starts with
`<nonempty alphabetic scheme>://`.  This follows the spec's words, for
comparison with the source's `endpoint_url.startswith("http")` test. -/
def carriesScheme (url : String) : Bool :=
  goScheme url.toList false

/-! ## Concrete fixtures (for evaluating the operations on small inputs) -/

/-- A sample registered tool. -/
def wTool : Tool :=
  { id := "t1", slug := "weather", display_name := "Weather", description := none,
    created_at := 0, updated_at := 0 }

/-- A sample version of `wTool` with a POST HTTP endpoint. -/
def wVersion (vid : String) (st : ToolStatus) (created : Nat) : ToolVersion :=
  { id := vid, tool_id := "t1", version := "1.0", status := st,
    input_schema := Json.obj [], output_schema := Json.obj [],
    endpoint_protocol := "http", endpoint_method := some "POST",
    endpoint_url := some "http://example.com/run", auth_type := "none",
    auth_key_name := none, auth_key_location := none, cost_per_call_usd := none,
    valid_from := none, valid_to := none, created_at := created, updated_at := created }

/-- Store with two active versions created at different times. -/
def wStore : Store :=
  { tools := [wTool],
    versions := [wVersion "v1" ToolStatus.active 1, wVersion "v2" ToolStatus.active 2] }

/-- Store with two active versions sharing the same `created_at`. -/
def tieStore : Store :=
  { tools := [wTool],
    versions := [wVersion "a" ToolStatus.active 5, wVersion "b" ToolStatus.active 5] }

/-- Store whose single version is `retired`. -/
def rStore : Store :=
  { tools := [wTool], versions := [wVersion "v1" ToolStatus.retired 1] }

/-- Two creation payloads sharing the slug `weather`. -/
def wPayload1 : ToolCreate :=
  { slug := "weather", display_name := "Weather", description := none }

/-- Second payload with the same slug as `wPayload1`. -/
def wPayload2 : ToolCreate :=
  { slug := "weather", display_name := "Weather II", description := none }

/-- A version-creation payload that sets `status` to `active` directly. -/
def cvPayload : ToolVersionCreate :=
  { version := "2.0", status := ToolStatus.active,
    input_schema := Json.obj [], output_schema := Json.obj [],
    endpoint_protocol := "http" }

/-- A version with a lower-case `get` method and a host-relative URL. -/
def geoVersion : ToolVersion :=
  { wVersion "g1" ToolStatus.active 3 with
    endpoint_method := some "get", endpoint_url := some "example.com/geo",
    endpoint_protocol := "https" }

/-- A version whose `endpoint_url` carries a non-http scheme prefix. -/
def grpcVersion : ToolVersion :=
  { wVersion "grpc1" ToolStatus.active 4 with
    endpoint_method := some "POST", endpoint_url := some "grpc://internal-host/run",
    endpoint_protocol := "grpc" }

/-- Resolve result delivering `wVersion "v2"`. -/
def gwResolved : ResolveResponse :=
  { tool := wTool, version := wVersion "v2" ToolStatus.active 2 }

/-- Resolve result delivering `geoVersion`. -/
def geoResolved : ResolveResponse := { tool := wTool, version := geoVersion }

/-- Resolve result delivering `grpcVersion`. -/
def grpcResolved : ResolveResponse := { tool := wTool, version := grpcVersion }

/-- A network where the tool answers HTTP 500 with a non-JSON body. -/
def okNet500 : HttpRequest → Except TransportError HttpResponse :=
  fun _ => Except.ok { status_code := 500, jsonBody := none, text := "Internal Server Error" }

/-- A network where every outbound request fails at transport level. -/
def errNet : HttpRequest → Except TransportError HttpResponse :=
  fun _ => Except.error { message := "connection refused" }

/-! ## Support lemmas -/

theorem pickLatest_cons (w : ToolVersion) (ws : List ToolVersion) :
    pickLatest (w :: ws) =
      match pickLatest ws with
      | none => some w
      | some x => if x.created_at > w.created_at then some x else some w := rfl

theorem pickLatest_eq_none_iff (l : List ToolVersion) : pickLatest l = none ↔ l = [] := by
  cases l with
  | nil => simp [pickLatest]
  | cons w ws =>
    rw [pickLatest_cons]
    cases pickLatest ws with
    | none =>
      show some w = none ↔ w :: ws = []
      simp
    | some x =>
      show (if x.created_at > w.created_at then some x else some w) = none ↔ w :: ws = []
      split <;> simp

theorem pickLatest_mem : ∀ {l : List ToolVersion} {v : ToolVersion},
    pickLatest l = some v → v ∈ l := by
  intro l
  induction l with
  | nil => intro v h; simp [pickLatest] at h
  | cons w ws ih =>
    intro v h
    rw [pickLatest_cons] at h
    cases hws : pickLatest ws with
    | none =>
      rw [hws] at h
      have h' : some w = some v := h
      injection h' with h'
      exact h' ▸ List.mem_cons_self w ws
    | some x =>
      rw [hws] at h
      have h' : (if x.created_at > w.created_at then some x else some w) = some v := h
      by_cases hc : x.created_at > w.created_at
      · rw [if_pos hc] at h'
        injection h' with h'
        exact List.mem_cons_of_mem w (h' ▸ ih hws)
      · rw [if_neg hc] at h'
        injection h' with h'
        exact h' ▸ List.mem_cons_self w ws

theorem pickLatest_le : ∀ {l : List ToolVersion} {v : ToolVersion},
    pickLatest l = some v → ∀ u ∈ l, u.created_at ≤ v.created_at := by
  intro l
  induction l with
  | nil => intro v h; simp [pickLatest] at h
  | cons w ws ih =>
    intro v h u hu
    rw [pickLatest_cons] at h
    cases hws : pickLatest ws with
    | none =>
      rw [hws] at h
      have h' : some w = some v := h
      injection h' with h'
      subst h'
      rw [(pickLatest_eq_none_iff ws).mp hws] at hu
      rw [List.mem_singleton] at hu
      subst hu
      exact Nat.le_refl _
    | some x =>
      rw [hws] at h
      have h' : (if x.created_at > w.created_at then some x else some w) = some v := h
      rcases List.mem_cons.mp hu with rfl | hmem
      · by_cases hc : x.created_at > u.created_at
        · rw [if_pos hc] at h'
          injection h' with h'
          subst h'
          exact Nat.le_of_lt hc
        · rw [if_neg hc] at h'
          injection h' with h'
          subst h'
          exact Nat.le_refl _
      · by_cases hc : x.created_at > w.created_at
        · rw [if_pos hc] at h'
          injection h' with h'
          subst h'
          exact ih hws u hmem
        · rw [if_neg hc] at h'
          injection h' with h'
          subst h'
          exact Nat.le_trans (ih hws u hmem) (Nat.le_of_not_lt hc)

theorem pickLatest_first_max : ∀ (l₁ : List ToolVersion) (v : ToolVersion)
    (l₂ : List ToolVersion),
    (∀ u ∈ l₁, u.created_at < v.created_at) →
    (∀ u ∈ l₂, u.created_at ≤ v.created_at) →
    pickLatest (l₁ ++ v :: l₂) = some v := by
  intro l₁
  induction l₁ with
  | nil =>
    intro v l₂ _ hafter
    rw [List.nil_append, pickLatest_cons]
    cases hl2 : pickLatest l₂ with
    | none => rfl
    | some w =>
      have hw : w.created_at ≤ v.created_at := hafter w (pickLatest_mem hl2)
      show (if w.created_at > v.created_at then some w else some v) = some v
      exact if_neg (Nat.not_lt.mpr hw)
  | cons a l₁ ih =>
    intro v l₂ hbefore hafter
    have hrec := ih v l₂ (fun u hu => hbefore u (List.mem_cons_of_mem a hu)) hafter
    rw [List.cons_append, pickLatest_cons, hrec]
    show (if v.created_at > a.created_at then some v else some a) = some v
    exact if_pos (hbefore a (List.mem_cons_self a l₁))

theorem find?_updateFirst (p : ToolVersion → Bool) (f : ToolVersion → ToolVersion) :
    ∀ (l : List ToolVersion) (v : ToolVersion), l.find? p = some v → p (f v) = true →
    (updateFirst p f l).find? p = some (f v) := by
  intro l
  induction l with
  | nil => intro v h _; simp at h
  | cons w ws ih =>
    intro v h hf
    by_cases hw : p w = true
    · rw [List.find?_cons_of_pos _ hw] at h
      injection h with h
      subst h
      unfold updateFirst
      rw [if_pos hw]
      exact List.find?_cons_of_pos _ hf
    · rw [List.find?_cons_of_neg _ hw] at h
      unfold updateFirst
      rw [if_neg hw, List.find?_cons_of_neg _ hw]
      exact ih v h hf

theorem resolve_tool_eq_of_find (s : Store) (slug : String) (tool : Tool)
    (hfind : s.tools.find? (fun t => t.slug = slug) = some tool) :
    resolve_tool s slug =
      match pickLatest (s.versions.filter
          (fun v => v.tool_id = tool.id ∧ v.status = ToolStatus.active)) with
      | none => Except.error (ApiError.httpError 404 "No active version for this tool")
      | some version => Except.ok { tool := tool, version := version } := by
  unfold resolve_tool
  rw [hfind]

/-! ## Claims -/

/-- C1: for every slug, `resolve_tool` fails with `NotFound` when no Tool
has that slug; when the tool exists but none of its versions has status
`active`, it fails with `NotFound`; otherwise it returns that tool together
with an active version having the greatest `created_at`. -/
theorem resolve_tool_spec (s : Store) (slug : String) :
    ((∀ t ∈ s.tools, t.slug ≠ slug) →
      resolve_tool s slug = Except.error (ApiError.httpError 404 "Tool not found")) ∧
    (∀ tool, s.tools.find? (fun t => t.slug = slug) = some tool →
      (∀ v ∈ s.versions, v.tool_id = tool.id → v.status ≠ ToolStatus.active) →
      resolve_tool s slug =
        Except.error (ApiError.httpError 404 "No active version for this tool")) ∧
    (∀ tool version,
      resolve_tool s slug = Except.ok { tool := tool, version := version } →
      tool ∈ s.tools ∧ tool.slug = slug ∧
      version ∈ s.versions ∧ version.tool_id = tool.id ∧
      version.status = ToolStatus.active ∧
      ∀ u ∈ s.versions, u.tool_id = tool.id → u.status = ToolStatus.active →
        u.created_at ≤ version.created_at) := by
  refine ⟨?_, ?_, ?_⟩
  · intro hns
    have hfind : s.tools.find? (fun t => t.slug = slug) = none :=
      List.find?_eq_none.mpr (by intro t ht; simpa using hns t ht)
    unfold resolve_tool
    rw [hfind]
  · intro tool hfind hna
    have hfilter : s.versions.filter
        (fun v => v.tool_id = tool.id ∧ v.status = ToolStatus.active) = [] := by
      rw [List.filter_eq_nil_iff]
      intro v hv
      simp only [decide_eq_true_eq, not_and]
      intro h1 h2
      exact hna v hv h1 h2
    rw [resolve_tool_eq_of_find s slug tool hfind, hfilter]
    rfl
  · intro tool version hok
    cases hfind : s.tools.find? (fun t => t.slug = slug) with
    | none =>
      unfold resolve_tool at hok
      rw [hfind] at hok
      exact absurd hok (by simp)
    | some t =>
      rw [resolve_tool_eq_of_find s slug t hfind] at hok
      cases hpick : pickLatest (s.versions.filter
          (fun v => v.tool_id = t.id ∧ v.status = ToolStatus.active)) with
      | none =>
        rw [hpick] at hok
        exact absurd hok (by simp)
      | some w =>
        rw [hpick] at hok
        have hok' : (Except.ok { tool := t, version := w } :
            Except ApiError ResolveResponse) =
            Except.ok { tool := tool, version := version } := hok
        injection hok' with hok'
        injection hok' with h1 h2
        subst h1
        subst h2
        obtain ⟨hmem, hprop⟩ := List.mem_filter.mp (pickLatest_mem hpick)
        have hprop' : w.tool_id = t.id ∧ w.status = ToolStatus.active := by
          simpa using hprop
        have hslug : t.slug = slug := by simpa using List.find?_some hfind
        refine ⟨List.mem_of_find?_eq_some hfind,
          hslug, hmem, hprop'.1, hprop'.2, ?_⟩
        intro u hu h1 h2
        exact pickLatest_le hpick u (List.mem_filter.mpr ⟨hu, decide_eq_true ⟨h1, h2⟩⟩)

/-- Witness for C1: on `wStore`, resolving `weather` returns the active
version created later (`v2`), which dominates every active version. -/
theorem resolve_tool_spec_witness :
    resolve_tool wStore "weather" =
      Except.ok { tool := wTool, version := wVersion "v2" ToolStatus.active 2 } ∧
    (wVersion "v2" ToolStatus.active 2).status = ToolStatus.active ∧
    ∀ u ∈ wStore.versions, u.tool_id = wTool.id → u.status = ToolStatus.active →
      u.created_at ≤ (wVersion "v2" ToolStatus.active 2).created_at := by
  have h := (resolve_tool_spec wStore "weather").2.2 wTool
    (wVersion "v2" ToolStatus.active 2) rfl
  exact ⟨rfl, h.2.2.2.2.1, h.2.2.2.2.2⟩

/-- C2: whenever the outbound dispatch completes (the network returns a
response), `call_tool` succeeds with `tool_status_code` equal to the
downstream status — even 4xx/5xx — and `result` the parsed JSON body, or
`{"raw": body text}` when the body is not valid JSON; the downstream
response is never turned into an Invoker-level failure. -/
theorem call_tool_downstream_passthrough (r : ResolveResponse)
    (input : List (String × Json))
    (net : HttpRequest → Except TransportError HttpResponse)
    (u : String) (resp : HttpResponse)
    (hurl : r.version.endpoint_url = some u) (hne : u ≠ "")
    (hm : normMethod r.version.endpoint_method = "GET" ∨
          normMethod r.version.endpoint_method = "POST")
    (hnet : ∀ q, net q = Except.ok resp) :
    (call_tool (Except.ok r) input net).1 =
      Except.ok { tool := r.tool, version := r.version,
                  tool_status_code := resp.status_code,
                  result :=
                    match resp.jsonBody with
                    | some j => j
                    | none => Json.obj [("raw", Json.str resp.text)] } := by
  rcases hm with hm | hm <;> simp [call_tool, hurl, hne, hm, hnet]

/-- Witness for C2: a downstream HTTP 500 with non-JSON body still yields an
Invoker success whose `tool_status_code` is 500 and whose `result` wraps the
raw text. -/
theorem call_tool_downstream_passthrough_witness :
    (call_tool (Except.ok gwResolved) [] okNet500).1 =
      Except.ok { tool := wTool, version := wVersion "v2" ToolStatus.active 2,
                  tool_status_code := 500,
                  result := Json.obj [("raw", Json.str "Internal Server Error")] } := by
  exact call_tool_downstream_passthrough gwResolved [] okNet500
    "http://example.com/run"
    { status_code := 500, jsonBody := none, text := "Internal Server Error" }
    rfl (by decide) (Or.inr rfl) (fun q => rfl)

/-- C5: the Invoker dispatches using `endpoint_method`, defaulting to POST
when unset; GET sends `input` as query parameters, POST sends it as a JSON
body, and any other method fails with an unsupported-method error without
dispatching any request. -/
theorem call_tool_dispatch_method (r : ResolveResponse)
    (input : List (String × Json))
    (net : HttpRequest → Except TransportError HttpResponse) (u : String)
    (hurl : r.version.endpoint_url = some u) (hne : u ≠ "") :
    (r.version.endpoint_method = none → normMethod r.version.endpoint_method = "POST") ∧
    (normMethod r.version.endpoint_method = "GET" →
      (call_tool (Except.ok r) input net).2 =
        [{ method := "GET",
           url := if strStartsWith u "http" then u
                  else r.version.endpoint_protocol ++ "://" ++ u,
           queryParams := some input, jsonBody := none }]) ∧
    (normMethod r.version.endpoint_method = "POST" →
      (call_tool (Except.ok r) input net).2 =
        [{ method := "POST",
           url := if strStartsWith u "http" then u
                  else r.version.endpoint_protocol ++ "://" ++ u,
           queryParams := none, jsonBody := some input }]) ∧
    (normMethod r.version.endpoint_method ≠ "GET" →
     normMethod r.version.endpoint_method ≠ "POST" →
      call_tool (Except.ok r) input net =
        (Except.error (ApiError.httpError 500
          ("Unsupported endpoint_method: " ++ normMethod r.version.endpoint_method)),
         [])) := by
  refine ⟨?_, ?_, ?_, ?_⟩
  · intro h
    rw [h]
    decide
  · intro hm
    simp [call_tool, hurl, hne, hm]
  · intro hm
    simp [call_tool, hurl, hne, hm]
  · intro hg hp
    simp [call_tool, hurl, hne, hg, hp]

/-- Witness for C5: a version whose `endpoint_method` is lower-case `get`
dispatches a single GET request carrying the input as query parameters. -/
theorem call_tool_dispatch_method_witness :
    (call_tool (Except.ok geoResolved) [("q", Json.str "here")] okNet500).2 =
      [{ method := "GET",
         url := if strStartsWith "example.com/geo" "http" then "example.com/geo"
                else geoResolved.version.endpoint_protocol ++ "://" ++ "example.com/geo",
         queryParams := some [("q", Json.str "here")], jsonBody := none }] := by
  exact (call_tool_dispatch_method geoResolved [("q", Json.str "here")] okNet500
    "example.com/geo" rfl (by decide)).2.1 rfl

/-- C7: when the outbound dispatch fails at transport level, `call_tool`
returns a 502 Bad-Gateway error wrapping the underlying cause, and exactly
one outbound request was dispatched — never a retry. -/
theorem call_tool_transport_failure (r : ResolveResponse)
    (input : List (String × Json))
    (net : HttpRequest → Except TransportError HttpResponse)
    (u : String) (e : TransportError)
    (hurl : r.version.endpoint_url = some u) (hne : u ≠ "")
    (hm : normMethod r.version.endpoint_method = "GET" ∨
          normMethod r.version.endpoint_method = "POST")
    (hnet : ∀ q, net q = Except.error e) :
    (call_tool (Except.ok r) input net).1 =
      Except.error
        (ApiError.httpError 502 ("Error calling tool endpoint: " ++ e.message)) ∧
    (call_tool (Except.ok r) input net).2.length = 1 := by
  rcases hm with hm | hm <;>
    exact ⟨by simp [call_tool, hurl, hne, hm, hnet], by simp [call_tool, hurl, hne, hm]⟩

/-- Witness for C7: a network refusing every connection makes `call_tool`
answer 502 with the cause, after exactly one dispatch attempt. -/
theorem call_tool_transport_failure_witness :
    (call_tool (Except.ok gwResolved) [] errNet).1 =
      Except.error
        (ApiError.httpError 502 ("Error calling tool endpoint: " ++ "connection refused")) ∧
    (call_tool (Except.ok gwResolved) [] errNet).2.length = 1 := by
  exact call_tool_transport_failure gwResolved [] errNet "http://example.com/run"
    { message := "connection refused" } rfl (by decide) (Or.inr rfl) (fun q => rfl)

/-- C6 counterexample: `grpcVersion.endpoint_url = "grpc://internal-host/run"`
carries a scheme prefix (`grpc://`), yet the gateway — whose test is
`startswith("http")`, not a general scheme test — still prepends
`endpoint_protocol`, and the dispatched URL differs from `endpoint_url`. -/
theorem call_tool_scheme_counterexample :
    carriesScheme "grpc://internal-host/run" = true ∧
    (call_tool (Except.ok grpcResolved) [] okNet500).2 =
      [{ method := "POST", url := "grpc://grpc://internal-host/run",
         queryParams := none, jsonBody := some [] }] ∧
    ("grpc://grpc://internal-host/run" : String) ≠ "grpc://internal-host/run" :=
  ⟨rfl, rfl, by decide⟩

/-- C6 (amended): every dispatched request's URL equals `endpoint_url`
unchanged when `endpoint_url` starts with the four characters `http`
(which covers `http://` and `https://`, the only dispatchable schemes),
and `endpoint_protocol ++ "://"` prepended to it otherwise. -/
theorem call_tool_target_url (r : ResolveResponse)
    (input : List (String × Json))
    (net : HttpRequest → Except TransportError HttpResponse) (u : String)
    (hurl : r.version.endpoint_url = some u) (hne : u ≠ "") :
    ∀ req ∈ (call_tool (Except.ok r) input net).2,
      req.url = if strStartsWith u "http" then u
                else r.version.endpoint_protocol ++ "://" ++ u := by
  intro req hreq
  by_cases hg : normMethod r.version.endpoint_method = "GET"
  · simp [call_tool, hurl, hne, hg] at hreq
    rw [hreq]
  · by_cases hp : normMethod r.version.endpoint_method = "POST"
    · simp [call_tool, hurl, hne, hg, hp] at hreq
      rw [hreq]
    · simp [call_tool, hurl, hne, hg, hp] at hreq

/-- Witness for C6 (amended): with the host-relative URL `example.com/geo`
and protocol `https`, the single dispatched request targets
`https://example.com/geo`. -/
theorem call_tool_target_url_witness :
    (HttpRequest.mk "GET" "https://example.com/geo" (some []) none).url
      = (if strStartsWith "example.com/geo" "http" then "example.com/geo"
         else geoResolved.version.endpoint_protocol ++ "://" ++ "example.com/geo") := by
  exact call_tool_target_url geoResolved [] okNet500 "example.com/geo" rfl (by decide)
    (HttpRequest.mk "GET" "https://example.com/geo" (some []) none)
    (by
      have h : (call_tool (Except.ok geoResolved) [] okNet500).2 =
          [HttpRequest.mk "GET" "https://example.com/geo" (some []) none] := rfl
      rw [h]
      exact List.mem_singleton.mpr rfl)

/-- C3: starting from a store without the slug, the first `create_tool`
succeeds; a second call with the same slug fails with `Conflict`
(HTTP 400, duplicate slug), leaves the store unchanged, and the store
retains exactly one Tool record with that slug. -/
theorem create_tool_conflict (s : Store) (p1 p2 : ToolCreate) (id1 id2 : String)
    (now1 now2 : Nat) (hslug : p2.slug = p1.slug)
    (hfresh : ∀ t ∈ s.tools, t.slug ≠ p1.slug) :
    ∃ t1 s1, create_tool s p1 id1 now1 = (Except.ok t1, s1) ∧
      (create_tool s1 p2 id2 now2).1 =
        Except.error (ApiError.httpError 400 "Tool with this slug already exists") ∧
      (create_tool s1 p2 id2 now2).2 = s1 ∧
      (s1.tools.filter (fun t => t.slug = p1.slug)).length = 1 := by
  have hany : s.tools.any (fun t => t.slug = p1.slug) = false := by
    rw [List.any_eq_false]
    intro t ht
    simpa using hfresh t ht
  have hnilf : s.tools.filter (fun t => t.slug = p1.slug) = [] := by
    rw [List.filter_eq_nil_iff]
    intro t ht
    simpa using hfresh t ht
  have h1 : create_tool s p1 id1 now1 =
      (Except.ok (Tool.mk id1 p1.slug p1.display_name p1.description now1 now1),
       { s with tools := s.tools ++
          [Tool.mk id1 p1.slug p1.display_name p1.description now1 now1] }) := by
    unfold create_tool
    rw [hany]
    simp
  have hany2 : ({ s with tools := s.tools ++
      [Tool.mk id1 p1.slug p1.display_name p1.description now1 now1] } :
      Store).tools.any (fun t => t.slug = p2.slug) = true := by
    rw [List.any_eq_true]
    refine ⟨Tool.mk id1 p1.slug p1.display_name p1.description now1 now1,
      List.mem_append_right _ (List.mem_singleton.mpr rfl), ?_⟩
    simpa using hslug.symm
  have h2 : create_tool ({ s with tools := s.tools ++
      [Tool.mk id1 p1.slug p1.display_name p1.description now1 now1] }) p2 id2 now2 =
      (Except.error (ApiError.httpError 400 "Tool with this slug already exists"),
       { s with tools := s.tools ++
          [Tool.mk id1 p1.slug p1.display_name p1.description now1 now1] }) := by
    unfold create_tool
    rw [hany2]
    rfl
  refine ⟨_, _, h1, ?_, ?_, ?_⟩
  · rw [h2]
  · rw [h2]
  · show ((s.tools ++
        [Tool.mk id1 p1.slug p1.display_name p1.description now1 now1]).filter
        (fun t => t.slug = p1.slug)).length = 1
    rw [List.filter_append, hnilf]
    simp

/-- Witness for C3: from the empty store, creating `weather` twice makes the
second call fail with 400 and leaves exactly one `weather` record. -/
theorem create_tool_conflict_witness :
    (create_tool (create_tool ⟨[], []⟩ wPayload1 "t1" 0).2 wPayload2 "t2" 1).1
      = Except.error (ApiError.httpError 400 "Tool with this slug already exists") ∧
    ((create_tool ⟨[], []⟩ wPayload1 "t1" 0).2.tools.filter
        (fun t => t.slug = wPayload1.slug)).length = 1 := by
  obtain ⟨t1, s1, h1, h2, h3, h4⟩ :=
    create_tool_conflict ⟨[], []⟩ wPayload1 wPayload2 "t1" "t2" 0 1 rfl
      (by intro t ht; simp at ht)
  have hs : (create_tool ⟨[], []⟩ wPayload1 "t1" 0).2 = s1 := by rw [h1]
  rw [hs]
  exact ⟨h2, h4⟩

/-- C4: `update_tool_version_status` overwrites the status with any of the
four values with no transition guard (in particular `retired → active`),
refreshes `updated_at`, and fails with `NotFound` exactly when no version
with that id exists under that tool; a subsequent read returns the new
status. -/
theorem update_tool_version_status_spec (s : Store) (tid vid : String)
    (newStatus : ToolStatus) (now : Nat) :
    ((∀ v ∈ s.versions, ¬(v.tool_id = tid ∧ v.id = vid)) →
      update_tool_version_status s tid vid newStatus now =
        (Except.error (ApiError.httpError 404 "Tool version not found"), s)) ∧
    (∀ v, s.versions.find? (fun w => w.tool_id = tid ∧ w.id = vid) = some v →
      (update_tool_version_status s tid vid newStatus now).1 =
        Except.ok { v with status := newStatus, updated_at := now } ∧
      get_tool_version (update_tool_version_status s tid vid newStatus now).2 tid vid =
        Except.ok { v with status := newStatus, updated_at := now }) := by
  constructor
  · intro hnone
    have hfind : s.versions.find? (fun w => w.tool_id = tid ∧ w.id = vid) = none :=
      List.find?_eq_none.mpr (by intro v hv; simpa using hnone v hv)
    unfold update_tool_version_status
    rw [hfind]
  · intro v hfind
    have hresult : update_tool_version_status s tid vid newStatus now =
        (Except.ok { v with status := newStatus, updated_at := now },
         Store.mk s.tools
           (updateFirst (fun w => w.tool_id = tid ∧ w.id = vid)
             (fun w => { w with status := newStatus, updated_at := now })
             s.versions)) := by
      unfold update_tool_version_status
      rw [hfind]
    have hpres : (fun w => decide (w.tool_id = tid ∧ w.id = vid))
        ({ v with status := newStatus, updated_at := now } : ToolVersion) = true := by
      have hv := List.find?_some hfind
      simp only [decide_eq_true_eq] at hv ⊢
      exact hv
    have hfind2 := find?_updateFirst
      (fun w => w.tool_id = tid ∧ w.id = vid)
      (fun w => { w with status := newStatus, updated_at := now })
      s.versions v hfind hpres
    refine ⟨by rw [hresult], ?_⟩
    rw [hresult]
    unfold get_tool_version
    rw [hfind2]

/-- Witness for C4: a `retired` version is switched directly to `active`
(no transition guard) and the read-back returns `active` with the refreshed
`updated_at`. -/
theorem update_tool_version_status_witness :
    (update_tool_version_status rStore "t1" "v1" ToolStatus.active 9).1 =
      Except.ok { wVersion "v1" ToolStatus.retired 1 with
                  status := ToolStatus.active, updated_at := 9 } ∧
    get_tool_version
        (update_tool_version_status rStore "t1" "v1" ToolStatus.active 9).2 "t1" "v1" =
      Except.ok { wVersion "v1" ToolStatus.retired 1 with
                  status := ToolStatus.active, updated_at := 9 } := by
  exact (update_tool_version_status_spec rStore "t1" "v1" ToolStatus.active 9).2
    (wVersion "v1" ToolStatus.retired 1) rfl

/-- C8 counterexample: a `create_tool_version` call whose payload sets
`status := active` succeeds and yields a version whose status is `active`,
not `draft` — creation does not force `draft`. -/
theorem create_tool_version_draft_counterexample :
    (create_tool_version wStore "t1" cvPayload "v9" 5).1.map ToolVersion.status =
      Except.ok ToolStatus.active ∧
    ToolStatus.active ≠ ToolStatus.draft :=
  ⟨rfl, by decide⟩

/-- C8 (amended): a successful `create_tool_version` gives the new version
the status carried by the payload; the payload's `status` field defaults to
`draft` when the request omits it, so a version starts in `draft` exactly
when the payload omits `status` or sets it to `draft`. -/
theorem create_tool_version_status (s : Store) (tid : String)
    (p : ToolVersionCreate) (newId : String) (now : Nat) (tool : Tool)
    (hfind : s.tools.find? (fun t => t.id = tid) = some tool) :
    ∃ v, (create_tool_version s tid p newId now).1 = Except.ok v ∧
      v.status = p.status ∧
      (p.status = ToolStatus.draft ↔ v.status = ToolStatus.draft) := by
  have h : create_tool_version s tid p newId now =
      (Except.ok (ToolVersion.mk newId tool.id p.version p.status p.input_schema
        p.output_schema p.endpoint_protocol p.endpoint_method p.endpoint_url
        p.auth_type p.auth_key_name p.auth_key_location p.cost_per_call_usd
        p.valid_from p.valid_to now now),
       Store.mk s.tools (s.versions ++ [ToolVersion.mk newId tool.id p.version
        p.status p.input_schema p.output_schema p.endpoint_protocol
        p.endpoint_method p.endpoint_url p.auth_type p.auth_key_name
        p.auth_key_location p.cost_per_call_usd p.valid_from p.valid_to now now])) := by
    unfold create_tool_version
    rw [hfind]
  refine ⟨_, by rw [h], rfl, Iff.rfl⟩

/-- Witness for C8 (amended): the version created from `cvPayload`
(`status := active`) carries exactly the payload's status. -/
theorem create_tool_version_status_witness :
    (create_tool_version wStore "t1" cvPayload "v9" 5).1.map ToolVersion.status =
      Except.ok cvPayload.status := by
  obtain ⟨v, hv, hst, _⟩ :=
    create_tool_version_status wStore "t1" cvPayload "v9" 5 wTool rfl
  rw [hv]
  show Except.ok v.status = Except.ok cvPayload.status
  rw [hst]

/-- C9: the Resolver's choice is a deterministic function of the store
state: two runs of `resolve_tool` on the same store agree, and when several
active versions tie on the greatest `created_at` the chosen one is exactly
the earliest-stored version attaining that maximum. -/
theorem resolve_tool_deterministic (s : Store) (slug : String) (tool : Tool)
    (l₁ l₂ : List ToolVersion) (v : ToolVersion)
    (hfind : s.tools.find? (fun t => t.slug = slug) = some tool)
    (hsplit : s.versions.filter
        (fun w => w.tool_id = tool.id ∧ w.status = ToolStatus.active) = l₁ ++ v :: l₂)
    (hbefore : ∀ u ∈ l₁, u.created_at < v.created_at)
    (hafter : ∀ u ∈ l₂, u.created_at ≤ v.created_at) :
    resolve_tool s slug = resolve_tool s slug ∧
    resolve_tool s slug = Except.ok { tool := tool, version := v } := by
  refine ⟨rfl, ?_⟩
  rw [resolve_tool_eq_of_find s slug tool hfind, hsplit,
    pickLatest_first_max l₁ v l₂ hbefore hafter]

/-- Witness for C9: on `tieStore`, whose two active versions share
`created_at = 5`, resolution deterministically picks the earlier-stored
version `a`. -/
theorem resolve_tool_deterministic_witness :
    resolve_tool tieStore "weather" =
      Except.ok { tool := wTool, version := wVersion "a" ToolStatus.active 5 } := by
  have h := resolve_tool_deterministic tieStore "weather" wTool []
    [wVersion "b" ToolStatus.active 5] (wVersion "a" ToolStatus.active 5)
    rfl rfl
    (by intro u hu; simp at hu)
    (by
      intro u hu
      rw [List.mem_singleton] at hu
      subst hu
      exact Nat.le_refl _)
  exact h.2

/-- C10: for a toolId naming no existing Tool (with versions only ever
attached to existing tools), `list_tool_versions` succeeds with the empty
sequence instead of failing with `NotFound` — unlike `create_tool_version`,
which checks tool existence first and fails with 404. -/
theorem list_versions_unknown_tool (s : Store) (tid : String)
    (st : Option ToolStatus) (p : ToolVersionCreate) (newId : String) (now : Nat)
    (hfk : ∀ v ∈ s.versions, ∃ t ∈ s.tools, t.id = v.tool_id)
    (htool : ∀ t ∈ s.tools, t.id ≠ tid) :
    list_tool_versions s tid st = [] ∧
    create_tool_version s tid p newId now =
      (Except.error (ApiError.httpError 404 "Tool not found"), s) := by
  have hfilter : s.versions.filter (fun v => v.tool_id = tid) = [] := by
    rw [List.filter_eq_nil_iff]
    intro v hv
    simp only [decide_eq_true_eq]
    intro hvt
    obtain ⟨t, ht, hid⟩ := hfk v hv
    exact htool t ht (hid.trans hvt)
  constructor
  · unfold list_tool_versions
    rw [hfilter]
    cases st <;> rfl
  · have hfind : s.tools.find? (fun t => t.id = tid) = none :=
      List.find?_eq_none.mpr (by intro t ht; simpa using htool t ht)
    unfold create_tool_version
    rw [hfind]

/-- Witness for C10: `wStore` knows only tool `t1`; listing versions of the
absent `t2` yields `[]` while creating a version under `t2` yields 404. -/
theorem list_versions_unknown_tool_witness :
    list_tool_versions wStore "t2" none = [] ∧
    create_tool_version wStore "t2" cvPayload "v9" 5 =
      (Except.error (ApiError.httpError 404 "Tool not found"), wStore) := by
  refine list_versions_unknown_tool wStore "t2" none cvPayload "v9" 5 ?_ ?_
  · intro v hv
    refine ⟨wTool, List.mem_singleton.mpr rfl, ?_⟩
    rcases List.mem_cons.mp hv with rfl | hv2
    · rfl
    · rw [List.mem_singleton] at hv2
      subst hv2
      rfl
  · intro t ht
    have ht' : t ∈ [wTool] := ht
    rw [List.mem_singleton] at ht'
    subst ht'
    decide
